import Mathlib

/-!
Verification development for the scrape-parse-normalize pipeline of
`parse_data.py` (Advent-of-Code leaderboard statistics harvester).

The Python source is shallowly embedded:
* Python string primitives used by the source (`str.strip`, slicing
  `[:-1]` / `[-8:]`, `str.split()`, `str.zfill`, `str(int)`, `str(bytes)`)
  are modelled as executable Lean functions on `String` / `List Char`.
* A daily leaderboard page is modelled as the document-ordered sequence of
  its entry blocks (the elements returned by `page.main.find_all('div')`),
  each carrying the text of its `leaderboard-position` and
  `leaderboard-time` fields; a yearly stats page is modelled as the
  document-ordered sequence of the text contents of the anchors returned
  by `page.main.pre.find_all('a')`.
* The pandas fragment actually used by the source is modelled on the
  fragment it is applied to: `pd.to_numeric` on a column of non-negative
  decimal integer strings (raising on anything else), `pd.to_timedelta` on
  `HH:MM:SS`-shaped strings, `pd.DataFrame(records, columns=[...])`
  (raising when a record's arity differs from the column count), and
  `DataFrame.melt` with `value_vars=['first','second']` (which stacks all
  `first` rows, in input order, above all `second` rows, in input order).
  Raising is modelled by `Option` (`none` = the pandas call raised).
-/

/-- Python `str.isspace` characters for the ASCII range, as used by the
default `str.strip()` / `str.split()`. -/
def isPySpace (c : Char) : Bool :=
  c == ' ' || c == Char.ofNat 9 || c == Char.ofNat 10 || c == Char.ofNat 13 ||
    c == Char.ofNat 11 || c == Char.ofNat 12

/-- Characters of Python `s.strip()` with no argument. -/
def pyStripChars (l : List Char) : List Char :=
  ((l.dropWhile isPySpace).reverse.dropWhile isPySpace).reverse

/-- Python `s.strip()` with no argument. -/
def pyStrip (s : String) : String :=
  String.mk (pyStripChars s.data)

/-- Python slice `s[:-1]` (empty string stays empty). -/
def pyDropLast (s : String) : String :=
  String.mk s.data.dropLast

/-- Python slice `s[-n:]` (the whole string when `s` is shorter than `n`). -/
def pyTakeLast (n : Nat) (s : String) : String :=
  String.mk (s.data.drop (s.data.length - n))

/-- Helper of `pySplit`: the accumulator holds the current, reversed token. -/
def pySplitAux : List Char → List Char → List String
  | [], acc => if acc.isEmpty then [] else [String.mk acc.reverse]
  | c :: cs, acc =>
    if isPySpace c then
      if acc.isEmpty then pySplitAux cs [] else String.mk acc.reverse :: pySplitAux cs []
    else
      pySplitAux cs (c :: acc)

/-- Python `s.split()` with no argument: split on whitespace runs, never
producing empty tokens. -/
def pySplit (s : String) : List String :=
  pySplitAux s.data []

/-- Python `s.zfill(w)` for non-negative content: left-pad with `'0'` up to
width `w`. -/
def pyZfill (w : Nat) (s : String) : String :=
  if w ≤ s.length then s else String.mk (List.replicate (w - s.length) '0') ++ s

/-- Value of an ASCII decimal digit character. -/
def digitVal (c : Char) : Option Nat :=
  if 48 ≤ c.toNat ∧ c.toNat ≤ 57 then some (c.toNat - 48) else none

/-- Helper of `parseNat`: fold the digits left to right. -/
def parseNatAux : List Char → Nat → Option Nat
  | [], acc => some acc
  | c :: cs, acc =>
    match digitVal c with
    | some d => parseNatAux cs (acc * 10 + d)
    | none => none

/-- Model of `pd.to_numeric` on the fragment the source feeds it:
a non-empty string of decimal digits parses to the integer it denotes,
anything else raises (`none`). -/
def parseNat (s : String) : Option Nat :=
  if s.data.isEmpty then none else parseNatAux s.data 0

/-- Model of `pd.to_timedelta` on the `HH:MM:SS`-shaped strings the source
feeds it, as a number of seconds; other shapes raise (`none`). -/
def parseTimedelta (s : String) : Option Nat :=
  match s.splitOn ":" with
  | [h, m, sec] => do
    let hv ← parseNat h
    let mv ← parseNat m
    let sv ← parseNat sec
    some (hv * 3600 + mv * 60 + sv)
  | _ => none

/-- One daily-leaderboard entry block (`div` under `main`), carrying the
stripped-to-be text of its `leaderboard-position` and `leaderboard-time`
fields. -/
structure Entry where
  position : String
  time : String
  deriving DecidableEq, Repr

/-- One loosely-typed record produced by `parse_daily`:
`(year, day, completion, position, time)`, all strings. -/
structure DailyTuple where
  year : String
  day : String
  completion : String
  position : String
  time : String
  deriving DecidableEq, Repr

/-- One row of the typed daily table built by `make_daily`
(`time` in seconds, for the `HH:MM:SS` durations the source parses). -/
structure DailyRow where
  year : Nat
  day : Nat
  completion : String
  position : Nat
  time : Nat
  deriving DecidableEq, Repr

/-- One pre-reshape yearly record after numeric coercion:
columns `year, day, second, first` of `make_yearly` before the melt. -/
structure YearlyPre where
  year : Nat
  day : Nat
  second : Nat
  first : Nat
  deriving DecidableEq, Repr

/-- One row of the long-form yearly table produced by the melt in
`make_yearly`: columns `year, day, completion, count`. -/
structure YearlyRow where
  year : Nat
  day : Nat
  completion : String
  count : Nat
  deriving DecidableEq, Repr

/-- The tuple built for the entry at zero-based document position `i` by the
comprehension in `parse_daily` (line 59 of `parse_data.py`):
`(year, day, 'first' if i > 99 else 'second',
  entry.position.strip()[:-1], entry.time.strip()[-8:])`. -/
def mkDailyTuple (year day : String) (i : Nat) (e : Entry) : DailyTuple :=
  ⟨year, day, if 99 < i then "first" else "second",
    pyDropLast (pyStrip e.position), pyTakeLast 8 (pyStrip e.time)⟩

/-- Model of `enumerate` over the entry blocks: `i` is the index of the
first entry of `es` within the whole page. -/
def parseDailyFrom (year day : String) : Nat → List Entry → List DailyTuple
  | _, [] => []
  | i, e :: es => mkDailyTuple year day i e :: parseDailyFrom year day (i + 1) es

/-- Daily extraction rule of `parse_daily` for one raw page: `year` and
`day` come from the file name (`file[:4]`, `file[5:7]`), `entries` are the
blocks of `page.main.find_all('div')` in document order. -/
def parseDailyEntries (year day : String) (entries : List Entry) : List DailyTuple :=
  parseDailyFrom year day 0 entries

/-- Yearly extraction rule of `parse_yearly` for one raw page
(line 150 of `parse_data.py`): for each anchor text, the loosely-typed
tuple `(year, *(text.split()[:3]))`, with `year` from the file name.
No arity validation is performed. -/
def parseYearlyPage (year : String) (anchors : List String) : List (List String) :=
  anchors.map (fun t => year :: (pySplit t).take 3)

/-- Row-wise coercion used by `make_daily`: `pd.to_numeric` on
`year`, `day`, `position` and `pd.to_timedelta` on `time`;
`completion` stays a plain string. -/
def parseDailyTuple (t : DailyTuple) : Option DailyRow := do
  let y ← parseNat t.year
  let d ← parseNat t.day
  let p ← parseNat t.position
  let tm ← parseTimedelta t.time
  some ⟨y, d, t.completion, p, tm⟩

/-- Row-wise model of `pd.DataFrame(yearly, columns=['year','day','second','first'])`
followed by `yearly.apply(pd.to_numeric)`: a record whose arity differs from
the four columns makes the DataFrame constructor raise (`none`), and each
field must coerce to a number. -/
def parseYearlyTuple : List String → Option YearlyPre
  | [ys, ds, ss, fs] => do
    let y ← parseNat ys
    let d ← parseNat ds
    let s ← parseNat ss
    let f ← parseNat fs
    some ⟨y, d, s, f⟩
  | _ => none

/-- Apply a fallible coercion to every record; the first raising record
aborts the whole table construction (`none`), as in pandas. -/
def parseAll (f : α → Option β) : List α → Option (List β)
  | [] => some []
  | x :: xs =>
    match f x, parseAll f xs with
    | some y, some ys => some (y :: ys)
    | _, _ => none

/-- Table Builder for the daily dataset: the formatting block of
`make_daily` (lines 83-85 of `parse_data.py`), without the download and
parquet side effects. -/
def buildDaily (tuples : List DailyTuple) : Option (List DailyRow) :=
  parseAll parseDailyTuple tuples

/-- The delta correction `yearly['first'] = yearly['second'].add(yearly['first'])`
of `make_yearly` (line 177). -/
def correctYearly (r : YearlyPre) : YearlyPre :=
  ⟨r.year, r.day, r.second, r.second + r.first⟩

/-- The `first`-tier row the melt produces for one pre-reshape record. -/
def mkFirstRow (r : YearlyPre) : YearlyRow :=
  ⟨r.year, r.day, "first", r.first⟩

/-- The `second`-tier row the melt produces for one pre-reshape record. -/
def mkSecondRow (r : YearlyPre) : YearlyRow :=
  ⟨r.year, r.day, "second", r.second⟩

/-- Table Builder for the yearly dataset: the formatting block of
`make_yearly` (lines 175-179 of `parse_data.py`): DataFrame construction
with four columns, numeric coercion, the delta correction, then
`melt(['year','day'], ['first','second'], var_name='completion',
value_name='count')`, which emits all `first` rows in input order followed
by all `second` rows in input order. -/
def buildYearly (rows : List (List String)) : Option (List YearlyRow) :=
  (parseAll parseYearlyTuple rows).map (fun parsed =>
    (parsed.map correctYearly).map mkFirstRow ++ (parsed.map correctYearly).map mkSecondRow)

/-- Hex digit character as Python prints it in `\xhh` escapes. -/
def hexDigit (n : Nat) : Char :=
  if n < 10 then Char.ofNat (48 + n) else Char.ofNat (87 + n)

/-- Escape of one byte inside Python `repr(bytes)`, given the chosen quote
byte `q`: backslash and the quote are backslash-escaped, tab, newline and
carriage return print as `\t`, `\n`, `\r`, other printable ASCII prints
as itself, everything else as `\xhh`. -/
def escByte (q : Nat) (b : Nat) : List Char :=
  if b = 92 ∨ b = q then ['\\', Char.ofNat b]
  else if b = 9 then ['\\', 't']
  else if b = 10 then ['\\', 'n']
  else if b = 13 then ['\\', 'r']
  else if 32 ≤ b ∧ b < 127 then [Char.ofNat b]
  else ['\\', 'x', hexDigit (b / 16), hexDigit (b % 16)]

/-- Python `str(b)` for a bytes object `b` (its `repr`): `b'...'`-quoted
with escapes; double quotes are used instead when the bytes contain a
single quote but no double quote. This is what line 31 / line 123 of
`parse_data.py` actually writes to the raw-page store, since the file is
opened in text mode and handed `str(req.content)`. -/
def pyStrBytes (bs : List Nat) : String :=
  let q : Nat := if 39 ∈ bs ∧ ¬(34 ∈ bs) then 34 else 39
  String.mk ('b' :: Char.ofNat q :: ((bs.map (escByte q)).flatten ++ [Char.ofNat q]))

/-- The received body decoded as text, byte for byte: what a verbatim write
of the body would store. -/
def bytesAsString (bs : List Nat) : String :=
  String.mk (bs.map Char.ofNat)

/-- Outcome of one `requests.get` call: either a response with a status
code and a body, or a raised network-level exception with a message. -/
inductive FetchResult where
  | response (status : Nat) (body : List Nat)
  | exception (msg : String)
  deriving DecidableEq, Repr

/-- The HTTP status `requests.codes.ok`. -/
def httpOk : Nat := 200

/-- One observable event of a daily fetch run: a write of `content` into
the raw-page store at `path` performed by the iteration for `(year, day)`,
or a line printed to the log. -/
inductive TraceEvent where
  | wrote (year : Nat) (day : Nat) (path : String) (content : String)
  | logged (msg : String)
  deriving DecidableEq, Repr

/-- One observable event of a yearly fetch run. -/
inductive YTraceEvent where
  | wrote (year : Nat) (path : String) (content : String)
  | logged (msg : String)
  deriving DecidableEq, Repr

/-- The raw-page store path written by `download_daily`:
`./daily_data/{year}-{str(day).zfill(2)}.html`, embedding the canonical
`{year}-{zero-padded day}` key. -/
def dailyPath (y d : Nat) : String :=
  "./daily_data/" ++ toString y ++ "-" ++ pyZfill 2 (toString d) ++ ".html"

/-- The raw-page store path written by `download_yearly`:
`./yearly_data/{year}-stats.html`, embedding the canonical `{year}-stats`
key. -/
def yearlyPath (y : Nat) : String :=
  "./yearly_data/" ++ toString y ++ "-stats.html"

/-- Log line of `download_daily` on a successful write. -/
def dlOkMsg (y d : Nat) : String :=
  "Downloaded year " ++ toString y ++ ", day " ++ toString d

/-- Log line of `download_daily` on a non-OK HTTP status. -/
def dlHttpMsg (y d s : Nat) : String :=
  "Response for request " ++ toString y ++ "-" ++ toString d ++ " is " ++ toString s

/-- Log line of `download_daily` on a caught exception. -/
def dlExcMsg (y d : Nat) (m : String) : String :=
  "Failed download/read of " ++ toString y ++ "-" ++ toString d ++ " with: " ++ m

/-- Log line printed by `download_daily` before the fetch loop. -/
def dlStartMsg (fy ly : Nat) : String :=
  "Requesting all information for year " ++ toString fy ++ " to " ++ toString ly

/-- Log line of `download_yearly` on a successful write. -/
def ylOkMsg (y : Nat) : String :=
  "Downloaded year " ++ toString y ++ " stats"

/-- Log line of `download_yearly` on a non-OK HTTP status. -/
def ylHttpMsg (y s : Nat) : String :=
  "Response for request " ++ toString y ++ " stats is " ++ toString s

/-- Log line of `download_yearly` on a caught exception. -/
def ylExcMsg (y : Nat) (m : String) : String :=
  "Failed download/read of " ++ toString y ++ " stats with: " ++ m

/-- Log line printed by `download_yearly` before the fetch loop. -/
def ylStartMsg (fy ly : Nat) : String :=
  "Requesting stats information for year " ++ toString fy ++ " to " ++ toString ly

/-- Events of one iteration of the `download_daily` loop body (lines 27-37
of `parse_data.py`): the try/except block around the request, with the
status check against `requests.codes.ok`. The 1-second sleep has no
observable event. -/
def dailyIter (resp : Nat → Nat → FetchResult) (y d : Nat) : List TraceEvent :=
  match resp y d with
  | .response s b =>
    if s = httpOk then
      [TraceEvent.wrote y d (dailyPath y d) (pyStrBytes b), TraceEvent.logged (dlOkMsg y d)]
    else
      [TraceEvent.logged (dlHttpMsg y d s)]
  | .exception m => [TraceEvent.logged (dlExcMsg y d m)]

/-- Full event trace of `download_daily(first_year, last_year)` under the
network oracle `resp`: the start log line, then for each year in
`range(first_year, last_year + 1)` and each day in `range(1, 26)`, the
events of that iteration. Being a total function, no iteration can abort
the loop. The `daily_data` directory bookkeeping is store management with
no modelled event. -/
def downloadDailyTrace (resp : Nat → Nat → FetchResult) (firstYear lastYear : Nat) :
    List TraceEvent :=
  TraceEvent.logged (dlStartMsg firstYear lastYear) ::
    (List.range' firstYear (lastYear + 1 - firstYear)).flatMap (fun y =>
      (List.range' 1 25).flatMap (fun d => dailyIter resp y d))

/-- Events of one iteration of the `download_yearly` loop body
(lines 118-129 of `parse_data.py`). -/
def yearlyIter (resp : Nat → FetchResult) (y : Nat) : List YTraceEvent :=
  match resp y with
  | .response s b =>
    if s = httpOk then
      [YTraceEvent.wrote y (yearlyPath y) (pyStrBytes b), YTraceEvent.logged (ylOkMsg y)]
    else
      [YTraceEvent.logged (ylHttpMsg y s)]
  | .exception m => [YTraceEvent.logged (ylExcMsg y m)]

/-- Full event trace of `download_yearly(first_year, last_year)` under the
network oracle `resp`. -/
def downloadYearlyTrace (resp : Nat → FetchResult) (firstYear lastYear : Nat) :
    List YTraceEvent :=
  YTraceEvent.logged (ylStartMsg firstYear lastYear) ::
    (List.range' firstYear (lastYear + 1 - firstYear)).flatMap (fun y => yearlyIter resp y)

/-- Modelled from the spec: the artifact store (the parquet files behind
`to_parquet` / `read_parquet`) is an external collaborator (spec section 6);
it is modelled as one key-value slot per dataset, storing the built table
verbatim, with a NotFound-style error on a read of a never-written slot. -/
structure ArtifactStore where
  dailyArtifact : Option (List DailyRow)
  yearlyArtifact : Option (List YearlyRow)
  deriving DecidableEq, Repr

/-- The store before any build has ever produced an artifact. -/
def emptyArtifactStore : ArtifactStore :=
  ⟨none, none⟩

/-- The build-and-persist part of `make_daily` (formatting block plus
`to_parquet`), on the pre-extracted tuples and an explicit store state. -/
def makeDaily (tuples : List DailyTuple) (st : ArtifactStore) :
    Option (List DailyRow × ArtifactStore) :=
  (buildDaily tuples).map (fun t => (t, ⟨some t, st.yearlyArtifact⟩))

/-- The build-and-persist part of `make_yearly`. -/
def makeYearly (rows : List (List String)) (st : ArtifactStore) :
    Option (List YearlyRow × ArtifactStore) :=
  (buildYearly rows).map (fun t => (t, ⟨st.dailyArtifact, some t⟩))

/-- Embedding of `get_daily` (lines 93-99 of `parse_data.py`):
`pd.read_parquet('daily.parquet')`, which raises a FileNotFoundError when
the artifact has never been written; a pure read of the store slot. -/
def getDaily (st : ArtifactStore) : Except String (List DailyRow) :=
  match st.dailyArtifact with
  | some t => Except.ok t
  | none => Except.error "FileNotFoundError: daily.parquet"

/-- Embedding of `get_yearly` (lines 187-193 of `parse_data.py`). -/
def getYearly (st : ArtifactStore) : Except String (List YearlyRow) :=
  match st.yearlyArtifact with
  | some t => Except.ok t
  | none => Except.error "FileNotFoundError: yearly.parquet"

theorem parseDailyFrom_length (year day : String) :
    ∀ (es : List Entry) (i : Nat), (parseDailyFrom year day i es).length = es.length := by
  intro es
  induction es with
  | nil => intro i; rfl
  | cons e es ih => intro i; simp [parseDailyFrom, ih]

theorem parseDailyFrom_getElem? (year day : String) :
    ∀ (es : List Entry) (i j : Nat),
      (parseDailyFrom year day i es)[j]?
        = es[j]?.map (fun e => mkDailyTuple year day (i + j) e) := by
  intro es
  induction es with
  | nil => intro i j; simp [parseDailyFrom]
  | cons e es ih =>
    intro i j
    cases j with
    | zero => simp [parseDailyFrom]
    | succ j =>
      simp only [parseDailyFrom, List.getElem?_cons_succ]
      rw [ih (i + 1) j]
      have he : i + 1 + j = i + (j + 1) := by omega
      rw [he]

theorem parseAll_length {α β : Type} {f : α → Option β} :
    ∀ {l : List α} {o : List β}, parseAll f l = some o → o.length = l.length := by
  intro l
  induction l with
  | nil => intro o h; simp [parseAll] at h; simp [← h]
  | cons x xs ih =>
    intro o h
    simp only [parseAll] at h
    cases hx : f x with
    | none => rw [hx] at h; exact absurd h (by simp)
    | some y =>
      rw [hx] at h
      cases hxs : parseAll f xs with
      | none => rw [hxs] at h; exact absurd h (by simp)
      | some ys =>
        rw [hxs] at h
        simp only [Option.some.injEq] at h
        subst h
        simp [ih hxs]

theorem parseAll_getElem? {α β : Type} {f : α → Option β} :
    ∀ {l : List α} {o : List β}, parseAll f l = some o →
      ∀ i : Nat, o[i]? = l[i]?.bind f := by
  intro l
  induction l with
  | nil =>
    intro o h i
    simp only [parseAll, Option.some.injEq] at h
    subst h
    simp
  | cons x xs ih =>
    intro o h i
    simp only [parseAll] at h
    cases hx : f x with
    | none => rw [hx] at h; exact absurd h (by simp)
    | some y =>
      rw [hx] at h
      cases hxs : parseAll f xs with
      | none => rw [hxs] at h; exact absurd h (by simp)
      | some ys =>
        rw [hxs] at h
        simp only [Option.some.injEq] at h
        subst h
        cases i with
        | zero => simp [hx]
        | succ i => simp [ih hxs i]

theorem parseAll_mem_isSome {α β : Type} {f : α → Option β} :
    ∀ {l : List α} {o : List β}, parseAll f l = some o →
      ∀ x ∈ l, ∃ y, f x = some y := by
  intro l
  induction l with
  | nil => intro o _ x hx; exact absurd hx (by simp)
  | cons z xs ih =>
    intro o h x hx
    simp only [parseAll] at h
    cases hz : f z with
    | none => rw [hz] at h; exact absurd h (by simp)
    | some y =>
      rw [hz] at h
      cases hxs : parseAll f xs with
      | none => rw [hxs] at h; exact absurd h (by simp)
      | some ys =>
        rcases List.mem_cons.mp hx with rfl | hmem
        · exact ⟨y, hz⟩
        · exact ih hxs x hmem

theorem parseAll_some_of_forall {α β : Type} {f : α → Option β} :
    ∀ {l : List α}, (∀ x ∈ l, ∃ y, f x = some y) → ∃ o, parseAll f l = some o := by
  intro l
  induction l with
  | nil => intro _; exact ⟨[], rfl⟩
  | cons x xs ih =>
    intro h
    obtain ⟨y, hy⟩ := h x (List.mem_cons_self x xs)
    obtain ⟨o, ho⟩ := ih (fun z hz => h z (List.mem_cons_of_mem x hz))
    exact ⟨y :: o, by simp [parseAll, hy, ho]⟩

theorem parseAll_eq_filterMap {α β : Type} {f : α → Option β} :
    ∀ {l : List α} {o : List β}, parseAll f l = some o → o = l.filterMap f := by
  intro l
  induction l with
  | nil => intro o h; simp [parseAll] at h; simp [← h]
  | cons x xs ih =>
    intro o h
    simp only [parseAll] at h
    cases hx : f x with
    | none => rw [hx] at h; exact absurd h (by simp)
    | some y =>
      rw [hx] at h
      cases hxs : parseAll f xs with
      | none => rw [hxs] at h; exact absurd h (by simp)
      | some ys =>
        rw [hxs] at h
        simp only [Option.some.injEq] at h
        subst h
        simp [List.filterMap_cons, hx, ih hxs]

/-- Claim C1: for every daily raw page, extraction produces exactly one
tuple per leaderboard entry block (N entries yield N tuples), and the
completion tier of the entry at zero-based document position `i` is
`second` when `i ≤ 99` and `first` when `i ≥ 100`. -/
theorem daily_extract_count_and_tier (year day : String) (entries : List Entry) :
    (parseDailyEntries year day entries).length = entries.length
    ∧ ∀ (i : Nat) (t : DailyTuple), (parseDailyEntries year day entries)[i]? = some t →
        t.completion = if i ≤ 99 then "second" else "first" := by
  constructor
  · exact parseDailyFrom_length year day entries 0
  · intro i t ht
    rw [parseDailyEntries, parseDailyFrom_getElem?] at ht
    cases he : entries[i]? with
    | none => rw [he] at ht; exact absurd ht (by simp)
    | some e =>
      rw [he] at ht
      have hT : t = mkDailyTuple year day (0 + i) e := by
        simpa using ht.symm
      subst hT
      simp only [mkDailyTuple, Nat.zero_add]
      by_cases h : i ≤ 99
      · rw [if_neg (by omega), if_pos h]
      · rw [if_pos (by omega), if_neg h]

/-- Witness for C1: a one-entry page yields one tuple whose entry at
position 0 carries the `second` tier. -/
theorem daily_extract_count_and_tier_witness :
    (⟨"2015", "01", "second", "1", "00:12:34"⟩ : DailyTuple).completion
      = if (0 : Nat) ≤ 99 then "second" else "first" :=
  (daily_extract_count_and_tier "2015" "01" [⟨"1.", "00:12:34"⟩]).2 0
    ⟨"2015", "01", "second", "1", "00:12:34"⟩ (by decide)

/-- Claim C5, amended: the extracted rank is the whitespace-stripped
position field with its final character unconditionally removed — which
preserves all digits exactly when that stripped field consists of digits
followed by one trailing character, e.g. `"101."` yields `101`, while a
field with no trailing punctuation loses its final digit — and the
extracted elapsed-time string is the final 8 characters of the
whitespace-stripped time field. -/
theorem daily_rank_time_extraction (year day : String) (entries : List Entry)
    (i : Nat) (e : Entry) (t : DailyTuple)
    (he : entries[i]? = some e)
    (ht : (parseDailyEntries year day entries)[i]? = some t) :
    (∀ (ds : List Char) (c : Char),
        (pyStrip e.position).data = ds ++ [c] → t.position = String.mk ds)
    ∧ ∀ (a b : List Char), (pyStrip e.time).data = a ++ b → b.length = 8 →
        t.time = String.mk b := by
  rw [parseDailyEntries, parseDailyFrom_getElem?, he] at ht
  have hT : t = mkDailyTuple year day (0 + i) e := by
    simpa using ht.symm
  subst hT
  constructor
  · intro ds c hds
    simp only [mkDailyTuple, pyDropLast]
    rw [hds, List.dropLast_concat]
  · intro a b hsplit hlen
    simp only [mkDailyTuple, pyTakeLast]
    rw [hsplit, List.length_append, hlen, Nat.add_sub_cancel, List.drop_left]

/-- Counterexample to C5 as stated: a position field with no trailing
punctuation is not left unchanged — the code's `[:-1]` slice removes its
final digit, so the field `"101"` yields rank string `"10"`. -/
theorem daily_rank_strip_counterexample :
    (parseDailyEntries "2015" "01" [⟨"101", "00:12:34"⟩])[0]?
      = some ⟨"2015", "01", "second", "10", "00:12:34"⟩
    ∧ ("10" : String) ≠ "101" := by
  decide

/-- Witness for amended C5: the position field `" 101. "` (digits plus one
trailing dot) keeps all its digits. -/
theorem daily_rank_time_extraction_witness :
    (⟨"2015", "01", "second", "101", "00:12:34"⟩ : DailyTuple).position
      = String.mk ['1', '0', '1'] :=
  ((daily_rank_time_extraction "2015" "01" [⟨" 101. ", "00:12:34"⟩] 0
      ⟨" 101. ", "00:12:34"⟩ ⟨"2015", "01", "second", "101", "00:12:34"⟩
      (by decide) (by decide)).1 ['1', '0', '1'] '.' (by decide))

/-- Claim C6: building the daily table and the yearly table from an empty
tuple sequence each succeed (no raised error, i.e. not `none`) and produce
an empty table; the column types are those of the row types `DailyRow` and
`YearlyRow`, identical to the non-empty case by construction. -/
theorem empty_build_succeeds :
    buildDaily [] = some [] ∧ buildYearly [] = some [] :=
  ⟨rfl, rfl⟩

/-- Claim C10: a yearly page with an anchor whose text has fewer than three
whitespace-separated tokens extracts, without any error, to a tuple with
fewer than four fields (year plus the existing tokens); the failure is
deferred to table construction, where the four-column DataFrame
constructor raises. -/
theorem yearly_extract_short_anchor :
    parseYearlyPage "2015" ["42"] = [["2015", "42"]]
    ∧ (["2015", "42"] : List String).length < 4
    ∧ buildYearly [["2015", "42"]] = none := by
  decide

/-- Claim C2: for every yearly input tuple, `build_yearly` recomputes the
true first-star total as second-count plus first-delta and emits exactly
two output rows per input tuple, one per completion tier; in particular a
single parsed tuple yields exactly the `first`-row with the corrected
total and the `second`-row with the scraped count. -/
theorem yearly_build_delta_and_two_rows :
    (∀ (rows : List (List String)) (out : List YearlyRow),
        buildYearly rows = some out → out.length = 2 * rows.length)
    ∧ ∀ (ys ds ss fs : String) (y d s f : Nat),
        parseNat ys = some y → parseNat ds = some d →
        parseNat ss = some s → parseNat fs = some f →
        buildYearly [[ys, ds, ss, fs]]
          = some [⟨y, d, "first", s + f⟩, ⟨y, d, "second", s⟩] := by
  constructor
  · intro rows out h
    rw [buildYearly] at h
    obtain ⟨parsed, hp, hout⟩ := Option.map_eq_some'.mp h
    subst hout
    simp only [List.length_append, List.length_map]
    rw [parseAll_length hp]
    omega
  · intro ys ds ss fs y d s f hy hd hs hf
    have hrow : parseYearlyTuple [ys, ds, ss, fs] = some ⟨y, d, s, f⟩ := by
      simp [parseYearlyTuple, hy, hd, hs, hf]
    simp [buildYearly, parseAll, hrow, correctYearly, mkFirstRow, mkSecondRow]

/-- Witness for C2: the spec scenario `[(2015, 1, "50", "10")]` yields the
rows `(2015, 1, first, 60)` and `(2015, 1, second, 50)`. -/
theorem yearly_build_delta_and_two_rows_witness :
    buildYearly [["2015", "1", "50", "10"]]
      = some [⟨2015, 1, "first", 50 + 10⟩, ⟨2015, 1, "second", 50⟩] :=
  yearly_build_delta_and_two_rows.2 "2015" "1" "50" "10" 2015 1 50 10
    (by decide) (by decide) (by decide) (by decide)

/-- Claim C7: the yearly reshape is invariant under permutation of the
input tuple sequence — the unordered multiset of output rows (and, when a
coercion raises, the failure itself) is identical for any two permuted
inputs. -/
theorem yearly_build_perm_invariant (l1 l2 : List (List String)) (hp : l1.Perm l2) :
    Option.map (fun o => (o : Multiset YearlyRow)) (buildYearly l1)
      = Option.map (fun o => (o : Multiset YearlyRow)) (buildYearly l2) := by
  rw [buildYearly, buildYearly]
  cases h1 : parseAll parseYearlyTuple l1 with
  | none =>
    cases h2 : parseAll parseYearlyTuple l2 with
    | none => rfl
    | some o2 =>
      obtain ⟨o1, ho1⟩ := parseAll_some_of_forall
        (fun x hx => parseAll_mem_isSome h2 x (hp.mem_iff.mp hx))
      rw [h1] at ho1
      exact absurd ho1 (by simp)
  | some o1 =>
    cases h2 : parseAll parseYearlyTuple l2 with
    | none =>
      obtain ⟨o2, ho2⟩ := parseAll_some_of_forall
        (fun x hx => parseAll_mem_isSome h1 x (hp.mem_iff.mpr hx))
      rw [h2] at ho2
      exact absurd ho2 (by simp)
    | some o2 =>
      have hperm : o1.Perm o2 := by
        rw [parseAll_eq_filterMap h1, parseAll_eq_filterMap h2]
        exact hp.filterMap _
      have hc : (o1.map correctYearly).Perm (o2.map correctYearly) := hperm.map _
      have hout : ((o1.map correctYearly).map mkFirstRow
            ++ (o1.map correctYearly).map mkSecondRow).Perm
          ((o2.map correctYearly).map mkFirstRow
            ++ (o2.map correctYearly).map mkSecondRow) :=
        (hc.map _).append (hc.map _)
      simp only [Option.map_some']
      exact congrArg some (Multiset.coe_eq_coe.mpr hout)

/-- Witness for C7: swapping two concrete yearly tuples leaves the output
row multiset unchanged. -/
theorem yearly_build_perm_invariant_witness :
    Option.map (fun o => (o : Multiset YearlyRow))
        (buildYearly [["2015", "1", "50", "10"], ["2015", "2", "70", "5"]])
      = Option.map (fun o => (o : Multiset YearlyRow))
        (buildYearly [["2015", "2", "70", "5"], ["2015", "1", "50", "10"]]) :=
  yearly_build_perm_invariant _ _ (List.Perm.swap _ _ _)

/-- Claim C9: in every table built by `build_yearly`, all rows of
completion tier `first` precede all rows of tier `second` (the melt stacks
the `first` block above the `second` block), and within each tier row `i`
comes from input tuple `i`, so input order is preserved. -/
theorem yearly_rows_order (rows : List (List String)) (out : List YearlyRow)
    (h : buildYearly rows = some out) :
    (∀ (i j : Nat) (a b : YearlyRow), out[i]? = some a → out[j]? = some b →
        a.completion = "first" → b.completion = "second" → i < j)
    ∧ ∀ (i : Nat) (r : YearlyPre), rows[i]?.bind parseYearlyTuple = some r →
        out[i]? = some (mkFirstRow (correctYearly r))
        ∧ out[rows.length + i]? = some (mkSecondRow (correctYearly r)) := by
  rw [buildYearly] at h
  obtain ⟨parsed, hp, hout⟩ := Option.map_eq_some'.mp h
  subst hout
  have hn : parsed.length = rows.length := parseAll_length hp
  have hcomp : ∀ (k : Nat) (x : YearlyRow),
      ((parsed.map correctYearly).map mkFirstRow
        ++ (parsed.map correctYearly).map mkSecondRow)[k]? = some x →
      (k < parsed.length → x.completion = "first")
      ∧ (parsed.length ≤ k → x.completion = "second") := by
    intro k x hx
    constructor
    · intro hk
      rw [List.getElem?_append_left (by simpa using hk)] at hx
      rw [List.getElem?_map] at hx
      cases hz : (parsed.map correctYearly)[k]? with
      | none => rw [hz] at hx; exact absurd hx (by simp)
      | some z =>
        rw [hz] at hx
        simp only [Option.map_some', Option.some.injEq] at hx
        rw [← hx]
        rfl
    · intro hk
      rw [List.getElem?_append_right (by simpa using hk)] at hx
      rw [List.getElem?_map] at hx
      cases hz : (parsed.map correctYearly)[k - ((parsed.map correctYearly).map mkFirstRow).length]? with
      | none => rw [hz] at hx; exact absurd hx (by simp)
      | some z =>
        rw [hz] at hx
        simp only [Option.map_some', Option.some.injEq] at hx
        rw [← hx]
        rfl
  constructor
  · intro i j a b ha hb hfa hfb
    have hia : i < parsed.length := by
      by_contra hc
      have hsec := (hcomp i a ha).2 (by omega)
      rw [hfa] at hsec
      exact absurd hsec (by decide)
    have hjb : parsed.length ≤ j := by
      by_contra hc
      have hfst := (hcomp j b hb).1 (by omega)
      rw [hfb] at hfst
      exact absurd hfst (by decide)
    omega
  · intro i r hr
    have hpi : parsed[i]? = some r := by
      rw [parseAll_getElem? hp i]
      exact hr
    have hilt : i < parsed.length := by
      by_contra hc
      rw [List.getElem?_eq_none (by omega)] at hpi
      exact Option.noConfusion hpi
    constructor
    · rw [List.getElem?_append_left (by simpa using hilt)]
      rw [List.getElem?_map, List.getElem?_map, hpi]
      rfl
    · rw [List.getElem?_append_right (by simp; omega)]
      have hidx : rows.length + i - ((parsed.map correctYearly).map mkFirstRow).length = i := by
        simp [hn]
      rw [hidx]
      rw [List.getElem?_map, List.getElem?_map, hpi]
      rfl

/-- Witness for C9: on the spec scenario the `first` row sits at index 0
and the `second` row at index 1, matching the single input tuple. -/
theorem yearly_rows_order_witness :
    ([⟨2015, 1, "first", 60⟩, ⟨2015, 1, "second", 50⟩] : List YearlyRow)[0]?
        = some (mkFirstRow (correctYearly ⟨2015, 1, 50, 10⟩))
    ∧ ([⟨2015, 1, "first", 60⟩, ⟨2015, 1, "second", 50⟩] : List YearlyRow)[1]?
        = some (mkSecondRow (correctYearly ⟨2015, 1, 50, 10⟩)) :=
  (yearly_rows_order [["2015", "1", "50", "10"]]
      [⟨2015, 1, "first", 60⟩, ⟨2015, 1, "second", 50⟩] (by decide)).2 0
    ⟨2015, 1, 50, 10⟩ (by decide)

theorem dailyIter_eq_response {resp : Nat → Nat → FetchResult} {y d s : Nat}
    {b : List Nat} (h : resp y d = FetchResult.response s b) :
    dailyIter resp y d
      = if s = httpOk
        then [TraceEvent.wrote y d (dailyPath y d) (pyStrBytes b),
              TraceEvent.logged (dlOkMsg y d)]
        else [TraceEvent.logged (dlHttpMsg y d s)] := by
  rw [dailyIter, h]

theorem dailyIter_eq_exception {resp : Nat → Nat → FetchResult} {y d : Nat}
    {m : String} (h : resp y d = FetchResult.exception m) :
    dailyIter resp y d = [TraceEvent.logged (dlExcMsg y d m)] := by
  rw [dailyIter, h]

theorem yearlyIter_eq_response {resp : Nat → FetchResult} {y s : Nat}
    {b : List Nat} (h : resp y = FetchResult.response s b) :
    yearlyIter resp y
      = if s = httpOk
        then [YTraceEvent.wrote y (yearlyPath y) (pyStrBytes b),
              YTraceEvent.logged (ylOkMsg y)]
        else [YTraceEvent.logged (ylHttpMsg y s)] := by
  rw [yearlyIter, h]

theorem wrote_mem_dailyIter {resp : Nat → Nat → FetchResult} {y d y' d' : Nat}
    {p c : String} (h : TraceEvent.wrote y' d' p c ∈ dailyIter resp y d) :
    y' = y ∧ d' = d ∧ ∃ b, resp y d = FetchResult.response httpOk b
      ∧ p = dailyPath y d ∧ c = pyStrBytes b := by
  cases hr : resp y d with
  | response s b =>
    rw [dailyIter_eq_response hr] at h
    by_cases hs : s = httpOk
    · subst hs
      rw [if_pos rfl] at h
      rcases List.mem_cons.mp h with h | h
      · injection h with h1 h2 h3 h4
        exact ⟨h1, h2, b, rfl, h3, h4⟩
      · rcases List.mem_cons.mp h with h | h
        · exact TraceEvent.noConfusion h
        · exact absurd h (by simp)
    · rw [if_neg hs] at h
      rcases List.mem_cons.mp h with h | h
      · exact TraceEvent.noConfusion h
      · exact absurd h (by simp)
  | exception m =>
    rw [dailyIter_eq_exception hr] at h
    rcases List.mem_cons.mp h with h | h
    · exact TraceEvent.noConfusion h
    · exact absurd h (by simp)

theorem mem_downloadDailyTrace_of {resp : Nat → Nat → FetchResult} {fy ly y d : Nat}
    (hy1 : fy ≤ y) (hy2 : y ≤ ly) (hd1 : 1 ≤ d) (hd2 : d ≤ 25)
    {e : TraceEvent} (he : e ∈ dailyIter resp y d) :
    e ∈ downloadDailyTrace resp fy ly := by
  rw [downloadDailyTrace]
  apply List.mem_cons_of_mem
  rw [List.mem_flatMap]
  refine ⟨y, List.mem_range'_1.mpr ⟨hy1, by omega⟩, ?_⟩
  rw [List.mem_flatMap]
  exact ⟨d, List.mem_range'_1.mpr ⟨hd1, by omega⟩, he⟩

theorem wrote_mem_downloadDailyTrace {resp : Nat → Nat → FetchResult}
    {fy ly y' d' : Nat} {p c : String}
    (h : TraceEvent.wrote y' d' p c ∈ downloadDailyTrace resp fy ly) :
    ∃ b, resp y' d' = FetchResult.response httpOk b
      ∧ p = dailyPath y' d' ∧ c = pyStrBytes b := by
  rw [downloadDailyTrace, List.mem_cons] at h
  rcases h with h | h
  · exact TraceEvent.noConfusion h
  · rw [List.mem_flatMap] at h
    obtain ⟨y, _, h⟩ := h
    rw [List.mem_flatMap] at h
    obtain ⟨d, _, h⟩ := h
    obtain ⟨rfl, rfl, b, hb, hp2, hc⟩ := wrote_mem_dailyIter h
    exact ⟨b, hb, hp2, hc⟩

theorem mem_downloadYearlyTrace_of {resp : Nat → FetchResult} {fy ly y : Nat}
    (hy1 : fy ≤ y) (hy2 : y ≤ ly)
    {e : YTraceEvent} (he : e ∈ yearlyIter resp y) :
    e ∈ downloadYearlyTrace resp fy ly := by
  rw [downloadYearlyTrace]
  apply List.mem_cons_of_mem
  rw [List.mem_flatMap]
  exact ⟨y, List.mem_range'_1.mpr ⟨hy1, by omega⟩, he⟩

/-- Claim C4: for every `(year, day)` in the requested range, a non-OK
HTTP status yields no raw-page write for that key (and the status is
logged); a raised network exception is caught, logged with the offending
key and message, and also yields no write; and in either case the loop
continues — every in-range `(year, day)` whose request succeeds is still
written, whatever the rest of the oracle does. No exception escapes: the
trace is a total function of the oracle. -/
theorem fetch_skip_and_continue (resp : Nat → Nat → FetchResult) (fy ly y d : Nat)
    (hy1 : fy ≤ y) (hy2 : y ≤ ly) (hd1 : 1 ≤ d) (hd2 : d ≤ 25) :
    (∀ s b, resp y d = FetchResult.response s b → s ≠ httpOk →
        (∀ p c, TraceEvent.wrote y d p c ∉ downloadDailyTrace resp fy ly)
        ∧ TraceEvent.logged (dlHttpMsg y d s) ∈ downloadDailyTrace resp fy ly)
    ∧ (∀ m, resp y d = FetchResult.exception m →
        (∀ p c, TraceEvent.wrote y d p c ∉ downloadDailyTrace resp fy ly)
        ∧ TraceEvent.logged (dlExcMsg y d m) ∈ downloadDailyTrace resp fy ly)
    ∧ (∀ b, resp y d = FetchResult.response httpOk b →
        TraceEvent.wrote y d (dailyPath y d) (pyStrBytes b)
          ∈ downloadDailyTrace resp fy ly) := by
  refine ⟨?_, ?_, ?_⟩
  · intro s b hr hs
    constructor
    · intro p c hmem
      obtain ⟨b', hb', _, _⟩ := wrote_mem_downloadDailyTrace hmem
      rw [hr] at hb'
      injection hb' with h1 _
      exact hs h1
    · apply mem_downloadDailyTrace_of hy1 hy2 hd1 hd2
      rw [dailyIter_eq_response hr, if_neg hs]
      simp
  · intro m hr
    constructor
    · intro p c hmem
      obtain ⟨b', hb', _, _⟩ := wrote_mem_downloadDailyTrace hmem
      rw [hr] at hb'
      exact FetchResult.noConfusion hb'
    · apply mem_downloadDailyTrace_of hy1 hy2 hd1 hd2
      rw [dailyIter_eq_exception hr]
      simp
  · intro b hr
    apply mem_downloadDailyTrace_of hy1 hy2 hd1 hd2
    rw [dailyIter_eq_response hr, if_pos rfl]
    simp

/-- Witness for C4: under an oracle that answers 404 for day 1, the 404 is
logged (and, per the theorem's other conjunct, nothing is written for that
key). -/
theorem fetch_skip_and_continue_witness :
    TraceEvent.logged (dlHttpMsg 2015 1 404)
      ∈ downloadDailyTrace
          (fun _ d => if d = 1 then FetchResult.response 404 []
            else FetchResult.response 200 [104]) 2015 2015 :=
  ((fetch_skip_and_continue
      (fun _ d => if d = 1 then FetchResult.response 404 []
        else FetchResult.response 200 [104])
      2015 2015 2015 1 (by decide) (by decide) (by decide) (by decide)).1
    404 [] (by decide) (by decide)).2

/-- Claim C3, amended: on an HTTP-OK response the fetcher writes, under the
canonical `{year}-{zero-padded day}` (daily) or `{year}-stats` (yearly)
key, not the body byte-for-byte but Python `str()` of the bytes object —
the `b'...'`-quoted repr with escape sequences — because the source opens
the file in text mode and writes `str(req.content)`. -/
theorem raw_write_repr_under_canonical_key :
    (∀ (resp : Nat → Nat → FetchResult) (fy ly y d : Nat),
        fy ≤ y → y ≤ ly → 1 ≤ d → d ≤ 25 →
        ∀ b, resp y d = FetchResult.response httpOk b →
          TraceEvent.wrote y d (dailyPath y d) (pyStrBytes b)
            ∈ downloadDailyTrace resp fy ly)
    ∧ ∀ (resp : Nat → FetchResult) (fy ly y : Nat),
        fy ≤ y → y ≤ ly →
        ∀ b, resp y = FetchResult.response httpOk b →
          YTraceEvent.wrote y (yearlyPath y) (pyStrBytes b)
            ∈ downloadYearlyTrace resp fy ly := by
  constructor
  · intro resp fy ly y d hy1 hy2 hd1 hd2 b hr
    apply mem_downloadDailyTrace_of hy1 hy2 hd1 hd2
    rw [dailyIter_eq_response hr, if_pos rfl]
    simp
  · intro resp fy ly y hy1 hy2 b hr
    apply mem_downloadYearlyTrace_of hy1 hy2
    rw [yearlyIter_eq_response hr, if_pos rfl]
    simp

/-- Counterexample to C3 as stated: for the OK body `"hi"` (bytes
`[104, 105]`) the store receives the repr `b'hi'`, not the body verbatim —
the byte-for-byte content is never written under the canonical key. -/
theorem raw_write_verbatim_counterexample :
    TraceEvent.wrote 2015 1 (dailyPath 2015 1) (pyStrBytes [104, 105])
        ∈ downloadDailyTrace (fun _ _ => FetchResult.response 200 [104, 105]) 2015 2015
    ∧ pyStrBytes [104, 105] ≠ bytesAsString [104, 105]
    ∧ bytesAsString [104, 105] = "hi"
    ∧ TraceEvent.wrote 2015 1 (dailyPath 2015 1) (bytesAsString [104, 105])
        ∉ downloadDailyTrace (fun _ _ => FetchResult.response 200 [104, 105]) 2015 2015 := by
  decide

/-- Witness for amended C3: a concrete OK response for `(2015, 1)` is
written as its `b'...'` repr at the canonical daily path, and likewise a
yearly body at the `-stats` path. -/
theorem raw_write_repr_under_canonical_key_witness :
    TraceEvent.wrote 2015 1 (dailyPath 2015 1) (pyStrBytes [104, 105])
      ∈ downloadDailyTrace (fun _ _ => FetchResult.response 200 [104, 105]) 2015 2015
    ∧ YTraceEvent.wrote 2015 (yearlyPath 2015) (pyStrBytes [104, 105])
      ∈ downloadYearlyTrace (fun _ => FetchResult.response 200 [104, 105]) 2015 2015 :=
  ⟨raw_write_repr_under_canonical_key.1
      (fun _ _ => FetchResult.response 200 [104, 105]) 2015 2015 2015 1
      (by decide) (by decide) (by decide) (by decide) [104, 105] (by decide),
   raw_write_repr_under_canonical_key.2
      (fun _ => FetchResult.response 200 [104, 105]) 2015 2015 2015
      (by decide) (by decide) [104, 105] (by decide)⟩

/-- Claim C8: `get_daily` / `get_yearly` read back exactly the previously
persisted table, fail with a NotFound-style error when no artifact has
ever been built, and depend on nothing but the stored artifact (no
parsing, no network). -/
theorem artifact_load_roundtrip :
    (∀ (tuples : List DailyTuple) (st : ArtifactStore) (t : List DailyRow)
        (st' : ArtifactStore),
        makeDaily tuples st = some (t, st') → getDaily st' = Except.ok t)
    ∧ (∀ (rows : List (List String)) (st : ArtifactStore) (t : List YearlyRow)
        (st' : ArtifactStore),
        makeYearly rows st = some (t, st') → getYearly st' = Except.ok t)
    ∧ getDaily emptyArtifactStore = Except.error "FileNotFoundError: daily.parquet"
    ∧ getYearly emptyArtifactStore = Except.error "FileNotFoundError: yearly.parquet"
    ∧ (∀ s1 s2 : ArtifactStore, s1.dailyArtifact = s2.dailyArtifact →
        getDaily s1 = getDaily s2)
    ∧ ∀ s1 s2 : ArtifactStore, s1.yearlyArtifact = s2.yearlyArtifact →
        getYearly s1 = getYearly s2 := by
  refine ⟨?_, ?_, rfl, rfl, ?_, ?_⟩
  · intro tuples st t st' h
    rw [makeDaily] at h
    obtain ⟨tb, _, hpair⟩ := Option.map_eq_some'.mp h
    injection hpair with h1 h2
    subst h1
    subst h2
    rfl
  · intro rows st t st' h
    rw [makeYearly] at h
    obtain ⟨tb, _, hpair⟩ := Option.map_eq_some'.mp h
    injection hpair with h1 h2
    subst h1
    subst h2
    rfl
  · intro s1 s2 h
    unfold getDaily
    rw [h]
  · intro s1 s2 h
    unfold getYearly
    rw [h]

/-- Witness for C8: building the empty daily table persists it, and the
accessor reads it back. -/
theorem artifact_load_roundtrip_witness :
    getDaily ⟨some [], none⟩ = Except.ok [] :=
  artifact_load_roundtrip.1 [] emptyArtifactStore [] ⟨some [], none⟩ rfl
